import Mathlib

/-!
Shallow embedding of the CSV → GeoJSON ingestion pipeline of
`src/components/CSVReader.ts` (site-finder repository).

JavaScript numbers are modelled as `JSNum` (a rational, an infinity, or
NaN); property values as `JSVal` (string, number, or undefined); a parsed
CSV row (Papa.parse with `header: true`) as an association list from
column name to raw string; a JS object literal built with spreads as an
association list where the *last* binding of a key wins, matching the
override semantics of object spread.
-/

namespace SiteFinder

/-- A JavaScript number: a finite rational, ±Infinity, or NaN. -/
inductive JSNum where
  | num (q : ℚ)
  | inf (pos : Bool)
  | nan
deriving DecidableEq, Repr

/-- A JavaScript property value as it appears in the emitted GeoJSON
feature objects: a string, a number, or `undefined`. -/
inductive JSVal where
  | str (s : String)
  | num (n : JSNum)
  | undefVal
deriving DecidableEq, Repr

/-- `isNaN` on a JS number. -/
def JSNum.isNaN : JSNum → Bool
  | .nan => true
  | _ => false

/-- JS truthiness of a number: `0`, `-0` and `NaN` are falsy. -/
def JSNum.truthy : JSNum → Bool
  | .num q => q ≠ 0
  | .inf _ => true
  | .nan => false

/-- `x || 0` on a JS number (used for the traffic and chunked-population
numeric defaults). -/
def JSNum.orZero (n : JSNum) : JSNum :=
  if n.truthy then n else .num 0

/-- `a < b` where `a` is a JS number and `b` a finite caller-supplied
bound; NaN compares false. -/
def JSNum.ltQ : JSNum → ℚ → Bool
  | .num q, b => q < b
  | .inf pos, _ => !pos
  | .nan, _ => false

/-- `a > b` where `a` is a JS number and `b` a finite caller-supplied
bound; NaN compares false. -/
def JSNum.gtQ : JSNum → ℚ → Bool
  | .num q, b => b < q
  | .inf pos, _ => pos
  | .nan, _ => false

/-- Negate a JS number (used to apply a leading sign). -/
def JSNum.neg : JSNum → JSNum
  | .num q => .num (-q)
  | .inf pos => .inf (!pos)
  | .nan => .nan

/-- Whitespace skipped by `parseFloat` / `parseInt`. -/
def isWs (c : Char) : Bool :=
  c = ' ' ∨ c = '\t' ∨ c = '\n' ∨ c = '\r'

/-- Digit characters. -/
def isDig (c : Char) : Bool :=
  '0' ≤ c && c ≤ '9'

/-- Numeric value of a digit string (most significant first). -/
def digitsVal (ds : List Char) : ℕ :=
  ds.foldl (fun a c => a * 10 + (c.toNat - 48)) 0

/-- Parse the optional exponent part of a decimal literal, as JS
`parseFloat` does: `e`/`E`, optional sign, digits; an exponent marker not
followed by digits is ignored (exponent 0). -/
def parseExp (cs : List Char) : ℤ :=
  match cs with
  | 'e' :: rest => parseExpTail rest
  | 'E' :: rest => parseExpTail rest
  | _ => 0
where
  parseExpTail (cs : List Char) : ℤ :=
    match cs with
    | '+' :: rest => (digitsVal (rest.takeWhile isDig) : ℤ)
    | '-' :: rest =>
        if rest.takeWhile isDig = [] then 0
        else -(digitsVal (rest.takeWhile isDig) : ℤ)
    | _ => (digitsVal (cs.takeWhile isDig) : ℤ)

/-- The rational `m * 10 ^ e`, for a natural mantissa and integer
exponent, built with `mkRat` so that it evaluates by reduction. -/
def decValue (m : ℕ) (e : ℤ) : ℚ :=
  match e with
  | .ofNat k => mkRat (m * 10 ^ k) 1
  | .negSucc k => mkRat m (10 ^ (k + 1))

/-- Magnitude part of JS `parseFloat` (after whitespace and sign):
`Infinity`, or decimal digits with optional fraction and exponent; if no
digit is found the result is NaN.  The value of `⟨int⟩.⟨frac⟩e⟨exp⟩` is
`(int·10^|frac| + frac) · 10^(exp−|frac|)`. -/
def parseFloatMag (cs : List Char) : JSNum :=
  if cs.take 8 = "Infinity".data then .inf true
  else
    let intDs := cs.takeWhile isDig
    let rest := cs.dropWhile isDig
    match rest with
    | '.' :: rest2 =>
        let fracDs := rest2.takeWhile isDig
        if intDs = [] ∧ fracDs = [] then .nan
        else
          .num (decValue (digitsVal (intDs ++ fracDs))
            (parseExp (rest2.dropWhile isDig) - fracDs.length))
    | _ =>
        if intDs = [] then .nan
        else .num (decValue (digitsVal intDs) (parseExp rest))

/-- JS `parseFloat` on a string: skip whitespace, optional sign, then the
longest decimal-literal (or `Infinity`) magnitude; NaN when nothing
parses. -/
def jsParseFloat (s : String) : JSNum :=
  match s.data.dropWhile isWs with
  | '+' :: rest => parseFloatMag rest
  | '-' :: rest => (parseFloatMag rest).neg
  | cs => parseFloatMag cs

/-- JS `parseFloat` applied to a possibly-absent field: an absent column
reads as `undefined`, which `parseFloat` turns into NaN. -/
def jsParseFloatOpt : Option String → JSNum
  | some s => jsParseFloat s
  | none => .nan

/-- JS `parseInt(s, 10)`: skip whitespace, optional sign, longest run of
decimal digits; NaN when there is none. -/
def jsParseInt (s : String) : JSNum :=
  match s.data.dropWhile isWs with
  | '+' :: rest => parseIntDigits rest true
  | '-' :: rest => parseIntDigits rest false
  | cs => parseIntDigits cs true
where
  parseIntDigits (cs : List Char) (pos : Bool) : JSNum :=
    match cs.takeWhile isDig with
    | [] => .nan
    | ds =>
        if pos then .num (mkRat (digitsVal ds) 1)
        else .num (mkRat (-(digitsVal ds : ℤ)) 1)

/-- JS `parseInt(x, 10)` applied to a possibly-absent field. -/
def jsParseIntOpt : Option String → JSNum
  | some s => jsParseInt s
  | none => .nan

/-- A raw CSV row as delivered by `Papa.parse` with `header: true`: an
association list from column name to raw string value. -/
abbrev Row := List (String × String)

/-- A JS object of property values, built by literal fields and spreads:
an association list where the last binding of a key wins. -/
abbrev Obj := List (String × JSVal)

/-- Look up the value of the *last* binding of a key in an association
list: this is the JS semantics of reading a property from an object
built by literal fields and spreads, where a later binding of the same
key overrides an earlier one. -/
def lookupLast {α : Type} (l : List (String × α)) (k : String) : Option α :=
  match l with
  | [] => none
  | p :: rest =>
      match lookupLast rest k with
      | some v => some v
      | none => if p.1 = k then some p.2 else none

/-- Field access on a raw row (`row.longitude` etc.): `none` when the
column is absent (JS `undefined`). -/
def Row.get (row : Row) (k : String) : Option String :=
  lookupLast row k

/-- Field access on an emitted properties object: last binding wins
(object-spread override semantics); `none` when the key is absent. -/
def Obj.get (o : Obj) (k : String) : Option JSVal :=
  lookupLast o k

/-- A raw row field as a property value: the raw string, or `undefined`
when the column is absent. -/
def Row.val (row : Row) (k : String) : JSVal :=
  match row.get k with
  | some s => .str s
  | none => .undefVal

/-- Rest of a destructuring `const { k₁, k₂, ... , ...rest } = row`:
every binding whose key is not extracted, values as strings. -/
def Row.rest (row : Row) (removed : List String) : Obj :=
  (row.filter (fun p => decide (p.1 ∉ removed))).map (fun p => (p.1, .str p.2))

/-- An emitted GeoJSON point feature: the coordinate pair as written into
`geometry.coordinates`, and the `properties` object. -/
structure Feature where
  coordinates : JSNum × JSNum
  properties : Obj
deriving DecidableEq, Repr

/-- Row handler of `readCompetitionsData`: skip when `longitude` or
`latitude` is the empty string; keep only the three storage `type`
labels; parse the coordinates and skip on NaN; emit `[lng, lat]` with
the normalized fields first and the residual columns spread after. -/
def competitionsRow (row : Row) : Option Feature :=
  if row.get "longitude" = some "" ∨ row.get "latitude" = some "" then none
  else if row.get "type" = some "Storage" ∨
      row.get "type" = some "Self storage facility" ∨
      row.get "type" = some "Storage facility" then
    let longitudeNum := jsParseFloatOpt (row.get "longitude")
    let latitudeNum := jsParseFloatOpt (row.get "latitude")
    if longitudeNum.isNaN ∨ latitudeNum.isNaN then none
    else some
      { coordinates := (longitudeNum, latitudeNum)
        properties :=
          [("query", row.val "query"), ("name", row.val "name"),
           ("address", row.val "full_address"), ("phone", row.val "phone"),
           ("site", row.val "site"), ("pointType", .str "competitor")]
          ++ row.rest ["longitude", "latitude"] }
  else none

/-- `readCompetitionsData` on the parsed rows of the CSV text: the
`forEach`+`push` loop keeps surviving rows in source order. -/
def readCompetitionsData (rows : List Row) : List Feature :=
  rows.filterMap competitionsRow

/-- Row handler of `readCommercialLandData`: parse the coordinates, skip
on NaN, and emit the coordinates as `[latitude, longitude]` (swapped),
with a fixed property list and no spread. -/
def commercialRow (row : Row) : Option Feature :=
  let longitude := jsParseFloatOpt (row.get "longitude")
  let latitude := jsParseFloatOpt (row.get "latitude")
  if longitude.isNaN ∨ latitude.isNaN then none
  else some
    { coordinates := (latitude, longitude)
      properties :=
        [("outcode", row.val "outcode"), ("pageTitle", row.val "pageTitle"),
         ("pricePerSqFt", row.val "pricePerSqFt"), ("price_1", row.val "price_1"),
         ("price_2", row.val "price_2"), ("property", row.val "property"),
         ("propertySubType", row.val "propertySubType"), ("sector", row.val "sector"),
         ("size", row.val "size"), ("type", row.val "type"),
         ("ukCountry", row.val "ukCountry"), ("url", row.val "url"),
         ("id", row.val "id"), ("pointType", .str "commercial")] }

/-- `readCommercialLandData` on the parsed rows. -/
def readCommercialLandData (rows : List Row) : List Feature :=
  rows.filterMap commercialRow

/-- Row handler of `readPopulationData` (the `step` callback):
destructure `Latitude`/`Longitude`, parse, skip on NaN, emit
`[longitude, latitude]` with `pointType: "population"` first and the
rest spread after. -/
def populationRow (row : Row) : Option Feature :=
  let longitude := jsParseFloatOpt (row.get "Longitude")
  let latitude := jsParseFloatOpt (row.get "Latitude")
  if longitude.isNaN ∨ latitude.isNaN then none
  else some
    { coordinates := (longitude, latitude)
      properties :=
        [("pointType", .str "population")] ++ row.rest ["Latitude", "Longitude"] }

/-- `readPopulationData` on the parsed rows: the streaming `step`
callback appends survivors in source order. -/
def readPopulationData (rows : List Row) : List Feature :=
  rows.filterMap populationRow

/-- Row handler of `readTrafficData`: parse coordinates, skip on NaN,
emit only `pointType`, `year` (bare `parseInt`) and
`all_motor_vehicles` (`parseInt(...) || 0`). -/
def trafficRow (row : Row) : Option Feature :=
  let longitude := jsParseFloatOpt (row.get "longitude")
  let latitude := jsParseFloatOpt (row.get "latitude")
  if longitude.isNaN ∨ latitude.isNaN then none
  else some
    { coordinates := (longitude, latitude)
      properties :=
        [("pointType", .str "traffic"),
         ("year", .num (jsParseIntOpt (row.get "year"))),
         ("all_motor_vehicles", .num (jsParseIntOpt (row.get "all_motor_vehicles")).orZero)] }

/-- `readTrafficData` on the parsed rows. -/
def readTrafficData (rows : List Row) : List Feature :=
  rows.filterMap trafficRow

/-- Row handler of the `step` callback inside `loadVisiblePopulation`:
destructure `Latitude`/`Longitude`/`BUA_Population`, parse the
coordinates, and skip the row when either is NaN or the point lies
outside the caller's bounds; the emitted properties spread the residual
columns first and then set `BUA_Population` to `parseInt(...) || 0`.
No `pointType` is assigned on this path. -/
def chunkRow (minLng minLat maxLng maxLat : ℚ) (row : Row) : Option Feature :=
  let lat := jsParseFloatOpt (row.get "Latitude")
  let lng := jsParseFloatOpt (row.get "Longitude")
  if lat.isNaN ∨ lng.isNaN ∨
      lng.ltQ minLng ∨ lng.gtQ maxLng ∨ lat.ltQ minLat ∨ lat.gtQ maxLat then none
  else some
    { coordinates := (lng, lat)
      properties :=
        row.rest ["Latitude", "Longitude", "BUA_Population"]
        ++ [("BUA_Population", .num (jsParseIntOpt (row.get "BUA_Population")).orZero)] }

/-- `const totalChunks = 18`. -/
def totalChunks : ℕ := 18

/-- `loadVisiblePopulation`: iterate shard ordinals `1..totalChunks` in
ascending order; a shard whose fetch/decode/parse fails (`Except.error`)
is skipped (the `try`/`catch` logs and continues); a successful shard
contributes its surviving rows in source order. -/
def loadVisiblePopulation (minLng minLat maxLng maxLat : ℚ)
    (fetchChunk : ℕ → Except Unit (List Row)) : List Feature :=
  ((List.range totalChunks).map (· + 1)).flatMap fun i =>
    match fetchChunk i with
    | .error _ => []
    | .ok rows => rows.filterMap (chunkRow minLng minLat maxLng maxLat)

/-- The contribution of one shard ordinal to the windowed load: nothing
when the shard fails, the shard's surviving rows in source order when it
succeeds. -/
def chunkSurvivors (minLng minLat maxLng maxLat : ℚ)
    (fetchChunk : ℕ → Except Unit (List Row)) (i : ℕ) : List Feature :=
  match fetchChunk i with
  | .error _ => []
  | .ok rows => rows.filterMap (chunkRow minLng minLat maxLng maxLat)

/-! ### Concrete rows and helpers used by the witness theorems -/

/-- The feature inside an optional result (dummy feature when `none`). -/
def featOf (o : Option Feature) : Feature := o.getD ⟨(.nan, .nan), []⟩

/-- A commercial/competitor/traffic-shaped row with raw `longitude=10`,
`latitude=20`. -/
def c1RowA : Row := [("longitude", "10"), ("latitude", "20")]

/-- A competitor row with raw `longitude=10`, `latitude=20` and an
allow-listed type. -/
def c1RowB : Row := [("longitude", "10"), ("latitude", "20"), ("type", "Storage")]

/-- A population-shaped row with raw `Longitude=10`, `Latitude=20`. -/
def c1RowC : Row := [("Longitude", "10"), ("Latitude", "20")]

/-- A competitor row whose type is the spec's literal third string. -/
def c2RowFacification : Row :=
  [("longitude", "10"), ("latitude", "20"), ("type", "Storage facification")]

/-- A competitor row whose type is the code's literal third string. -/
def c2RowFacility : Row :=
  [("longitude", "10"), ("latitude", "20"), ("type", "Storage facility")]

/-- A typeless row with valid coordinates. -/
def c2RowPlain : Row := [("longitude", "10"), ("latitude", "20")]

/-- A population-shaped row with valid coordinates. -/
def c2RowPop : Row := [("Longitude", "10"), ("Latitude", "20")]

/-- A competitor row whose longitude `200` is outside `[-180, 180]`. -/
def c3RowOutOfRange : Row :=
  [("longitude", "200"), ("latitude", "20"), ("type", "Storage")]

/-- A row whose longitude parses to `Infinity` (not NaN, not finite). -/
def c3RowInf : Row := [("longitude", "Infinity"), ("latitude", "20")]

/-- A row with a non-numeric longitude. -/
def c3RowBad : Row := [("longitude", "abc"), ("latitude", "20")]

/-- A population-shaped row with a non-numeric longitude. -/
def c3RowBadPop : Row := [("Longitude", "abc"), ("Latitude", "20")]

/-- A population-shaped row inside the witness bounding boxes. -/
def c4Row : Row := [("Longitude", "10"), ("Latitude", "20")]

/-- A shard table whose shard 2 fails and every other shard succeeds. -/
def c4Fetch : ℕ → Except Unit (List Row) :=
  fun i => if i = 2 then .error () else .ok [c4Row]

/-- A population-shaped row lying exactly on a bounding-box corner. -/
def c5RowOnBound : Row := [("Longitude", "0"), ("Latitude", "10")]

/-- A traffic row with non-numeric `year` and `all_motor_vehicles`. -/
def c6Row : Row :=
  [("longitude", "10"), ("latitude", "20"), ("year", "unknown"),
   ("all_motor_vehicles", "n/a")]

/-- A shard table whose every shard returns the same two rows. -/
def c7Fetch : ℕ → Except Unit (List Row) :=
  fun _ => .ok [c4Row, c2RowPop]

/-- A chunk row with valid coordinates and no raw `pointType` column. -/
def c8Row : Row := [("Longitude", "10"), ("Latitude", "20")]

/-- A shard table where only shard 1 succeeds, with one surviving row. -/
def c8Fetch : ℕ → Except Unit (List Row) :=
  fun i => if i = 1 then .ok [c8Row] else .error ()

/-- A population row with a raw `BUA_Population` column. -/
def c9Row : Row :=
  [("Longitude", "10"), ("Latitude", "20"), ("BUA_Population", "100")]

/-- A competitor row whose raw data also contains `address`, `query` and
`pointType` columns, colliding with the normalized property names. -/
def c10Row : Row :=
  [("longitude", "10"), ("latitude", "20"), ("type", "Storage"),
   ("full_address", "FULL"), ("address", "RAW"), ("query", "Q"),
   ("pointType", "hacked")]

/-! ### Helper lemmas about association-list lookup -/

theorem lookupLast_cons {α : Type} (p : String × α) (l : List (String × α)) (k : String) :
    lookupLast (p :: l) k =
      (lookupLast l k).or (if p.1 = k then some p.2 else none) := by
  simp only [lookupLast]
  cases lookupLast l k <;> rfl

theorem lookupLast_append {α : Type} (l₁ l₂ : List (String × α)) (k : String) :
    lookupLast (l₁ ++ l₂) k = (lookupLast l₂ k).or (lookupLast l₁ k) := by
  induction l₁ with
  | nil => simp [lookupLast]
  | cons p rest ih =>
      simp only [List.cons_append, lookupLast_cons, ih, Option.or_assoc]

theorem lookupLast_rest (row : Row) (removed : List String) (k : String) :
    lookupLast (Row.rest row removed) k =
      if k ∈ removed then none
      else (Row.get row k).map JSVal.str := by
  induction row with
  | nil => simp [Row.rest, Row.get, lookupLast]
  | cons p rest ih =>
      simp only [Row.rest, Row.get, List.filter_cons] at ih ⊢
      by_cases hp : p.1 ∈ removed <;>
        by_cases hk : k ∈ removed <;>
        by_cases hpk : p.1 = k <;>
        simp_all [lookupLast_cons, Option.or_none, hpk] <;>
        cases lookupLast rest k <;> simp

theorem Obj.get_append (l₁ l₂ : Obj) (k : String) :
    Obj.get (l₁ ++ l₂) k = (Obj.get l₂ k).or (Obj.get l₁ k) :=
  lookupLast_append l₁ l₂ k

theorem Obj.get_rest (row : Row) (removed : List String) (k : String) :
    Obj.get (Row.rest row removed) k =
      if k ∈ removed then none
      else (Row.get row k).map JSVal.str :=
  lookupLast_rest row removed k

/-! ### Generic helper lemmas -/

theorem flatMap_congr {α β : Type} (l : List α) (f g : α → List β)
    (h : ∀ a ∈ l, f a = g a) : l.flatMap f = l.flatMap g := by
  induction l with
  | nil => rfl
  | cons x xs ih =>
      simp only [List.flatMap_cons, h x (by simp)]
      rw [ih (fun a ha => h a (by simp [ha]))]

theorem inverted_excludes (n : JSNum) (lo hi : ℚ) (h : hi < lo) :
    n.isNaN = true ∨ n.ltQ lo = true ∨ n.gtQ hi = true := by
  cases n with
  | nan => exact Or.inl rfl
  | inf pos =>
      cases pos
      · exact Or.inr (Or.inl rfl)
      · exact Or.inr (Or.inr rfl)
  | num q =>
      by_cases hq : q < lo
      · exact Or.inr (Or.inl (by simp [JSNum.ltQ, hq]))
      · refine Or.inr (Or.inr ?_)
        simp only [JSNum.gtQ, decide_eq_true_eq]
        linarith [not_lt.mp hq]

/-! ### Claim C1 -/

/-- Claim C1: every surviving commercial row is emitted with the
coordinate pair `[latitude, longitude]` (swapped relative to GeoJSON
convention), while every surviving competitor, traffic or population row
is emitted with the pair `[longitude, latitude]` (unswapped). -/
theorem coordinate_order_per_dataset :
    (∀ row f, commercialRow row = some f →
      f.coordinates =
        (jsParseFloatOpt (row.get "latitude"), jsParseFloatOpt (row.get "longitude"))) ∧
    (∀ row f, competitionsRow row = some f →
      f.coordinates =
        (jsParseFloatOpt (row.get "longitude"), jsParseFloatOpt (row.get "latitude"))) ∧
    (∀ row f, trafficRow row = some f →
      f.coordinates =
        (jsParseFloatOpt (row.get "longitude"), jsParseFloatOpt (row.get "latitude"))) ∧
    (∀ row f, populationRow row = some f →
      f.coordinates =
        (jsParseFloatOpt (row.get "Longitude"), jsParseFloatOpt (row.get "Latitude"))) := by
  refine ⟨?_, ?_, ?_, ?_⟩ <;> intro row f h <;>
    simp only [commercialRow, competitionsRow, trafficRow, populationRow] at h <;>
    split_ifs at h <;>
    simp only [Option.some.injEq] at h <;>
    subst h <;> rfl

/-- Witness for C1: with raw `longitude=10, latitude=20`, the commercial
loader emits `[20, 10]` and the other three loaders emit `[10, 20]`. -/
theorem coordinate_order_witness :
    (featOf (commercialRow c1RowA)).coordinates = (.num 20, .num 10) ∧
    (featOf (competitionsRow c1RowB)).coordinates = (.num 10, .num 20) ∧
    (featOf (trafficRow c1RowA)).coordinates = (.num 10, .num 20) ∧
    (featOf (populationRow c1RowC)).coordinates = (.num 10, .num 20) :=
  ⟨(coordinate_order_per_dataset.1 c1RowA _ (by decide)).trans (by decide),
   (coordinate_order_per_dataset.2.1 c1RowB _ (by decide)).trans (by decide),
   (coordinate_order_per_dataset.2.2.1 c1RowA _ (by decide)).trans (by decide),
   (coordinate_order_per_dataset.2.2.2 c1RowC _ (by decide)).trans (by decide)⟩

/-! ### Claim C2 -/

/-- Counterexample to C2 as stated: a competitor row with valid
coordinates and raw type exactly `"Storage facification"` (the spec's
third listed string) is dropped, while one with `"Storage facility"`
(not among the spec's three strings) is kept. -/
theorem type_filter_cex :
    competitionsRow c2RowFacification = none ∧
    (competitionsRow c2RowFacility).isSome = true := by decide

/-- Claim C2 (amended): a competitor row with valid coordinates is kept
iff its raw `type` is exactly `"Storage"`, `"Self storage facility"`, or
`"Storage facility"` (not `"Storage facification"`); the other datasets
apply no type filter. -/
theorem type_filter_iff :
    (∀ row, (jsParseFloatOpt (row.get "longitude")).isNaN = false →
        (jsParseFloatOpt (row.get "latitude")).isNaN = false →
        ((competitionsRow row).isSome = true ↔
          (row.get "type" = some "Storage" ∨
           row.get "type" = some "Self storage facility" ∨
           row.get "type" = some "Storage facility"))) ∧
    (∀ row, (jsParseFloatOpt (row.get "longitude")).isNaN = false →
        (jsParseFloatOpt (row.get "latitude")).isNaN = false →
        (commercialRow row).isSome = true ∧ (trafficRow row).isSome = true) ∧
    (∀ row, (jsParseFloatOpt (row.get "Longitude")).isNaN = false →
        (jsParseFloatOpt (row.get "Latitude")).isNaN = false →
        (populationRow row).isSome = true) := by
  refine ⟨?_, ?_, ?_⟩
  · intro row h1 h2
    constructor
    · intro hs
      simp only [competitionsRow] at hs
      split_ifs at hs with hA hB hC
      · simp at hs
      · simp at hs
      · exact hB
      · simp at hs
    · intro hB
      have hA : ¬(row.get "longitude" = some "" ∨ row.get "latitude" = some "") := by
        rintro (h | h)
        · rw [h] at h1; exact absurd h1 (by decide)
        · rw [h] at h2; exact absurd h2 (by decide)
      simp [competitionsRow, hA, hB, h1, h2]
  · intro row h1 h2
    constructor <;> simp [commercialRow, trafficRow, h1, h2]
  · intro row h1 h2
    simp [populationRow, h1, h2]

/-- Witness for C2 (amended): the `"Storage facility"` row is kept, and
rows of the other datasets are kept with no type at all. -/
theorem type_filter_iff_witness :
    (competitionsRow c2RowFacility).isSome = true ∧
    (commercialRow c2RowPlain).isSome = true ∧
    (trafficRow c2RowPlain).isSome = true ∧
    (populationRow c2RowPop).isSome = true :=
  ⟨(type_filter_iff.1 c2RowFacility (by decide) (by decide)).mpr (by decide),
   (type_filter_iff.2.1 c2RowPlain (by decide) (by decide)).1,
   (type_filter_iff.2.1 c2RowPlain (by decide) (by decide)).2,
   type_filter_iff.2.2 c2RowPop (by decide) (by decide)⟩

/-! ### Claim C3 -/

/-- Counterexample to C3 as stated: a competitor row with longitude 200
(outside `[-180, 180]`) survives and is emitted with that out-of-range
coordinate, and a row with longitude `"Infinity"` is emitted with a
non-finite coordinate — no range or finiteness validation exists. -/
theorem coordinate_range_cex :
    (competitionsRow c3RowOutOfRange).isSome = true ∧
    (featOf (competitionsRow c3RowOutOfRange)).coordinates = (.num 200, .num 20) ∧
    ¬((200 : ℚ) ≤ 180) ∧
    (commercialRow c3RowInf).isSome = true ∧
    (featOf (commercialRow c3RowInf)).coordinates = (.num 20, .inf true) := by decide

/-- Claim C3 (amended): a row whose longitude or latitude column is
absent, empty or non-numeric (i.e. parses to NaN) yields no record on
any load path, and every emitted record's coordinates are non-NaN; the
code applies no domain-range or finiteness check beyond that. -/
theorem coordinate_nan_validation :
    (∀ row, ((jsParseFloatOpt (row.get "longitude")).isNaN = true ∨
             (jsParseFloatOpt (row.get "latitude")).isNaN = true) →
       competitionsRow row = none ∧ commercialRow row = none ∧ trafficRow row = none) ∧
    (∀ row, ((jsParseFloatOpt (row.get "Longitude")).isNaN = true ∨
             (jsParseFloatOpt (row.get "Latitude")).isNaN = true) →
       populationRow row = none ∧
       ∀ minLng minLat maxLng maxLat, chunkRow minLng minLat maxLng maxLat row = none) ∧
    (∀ row f, competitionsRow row = some f →
       f.coordinates.1.isNaN = false ∧ f.coordinates.2.isNaN = false) ∧
    (∀ row f, commercialRow row = some f →
       f.coordinates.1.isNaN = false ∧ f.coordinates.2.isNaN = false) ∧
    (∀ row f, trafficRow row = some f →
       f.coordinates.1.isNaN = false ∧ f.coordinates.2.isNaN = false) ∧
    (∀ row f, populationRow row = some f →
       f.coordinates.1.isNaN = false ∧ f.coordinates.2.isNaN = false) ∧
    (∀ minLng minLat maxLng maxLat row f,
       chunkRow minLng minLat maxLng maxLat row = some f →
       f.coordinates.1.isNaN = false ∧ f.coordinates.2.isNaN = false) := by
  refine ⟨?_, ?_, ?_, ?_, ?_, ?_, ?_⟩
  · intro row h
    refine ⟨?_, ?_, ?_⟩ <;>
      simp only [competitionsRow, commercialRow, trafficRow] <;>
      split_ifs <;> simp_all
  · intro row h
    refine ⟨?_, fun minLng minLat maxLng maxLat => ?_⟩ <;>
      simp only [populationRow, chunkRow] <;>
      split_ifs <;> simp_all
  all_goals
    first
    | (intro row f h
       simp only [competitionsRow, commercialRow, trafficRow, populationRow] at h
       split_ifs at h <;> simp_all <;> subst h <;> simp_all [Bool.not_eq_true])
    | (intro minLng minLat maxLng maxLat row f h
       simp only [chunkRow] at h
       split_ifs at h <;> simp_all <;> subst h <;> simp_all [Bool.not_eq_true])

/-- Witness for C3 (amended): a non-numeric longitude drops the row on
every path, and a surviving commercial row has non-NaN coordinates. -/
theorem coordinate_nan_validation_witness :
    (competitionsRow c3RowBad = none ∧ commercialRow c3RowBad = none ∧
      trafficRow c3RowBad = none) ∧
    (populationRow c3RowBadPop = none ∧ chunkRow 0 0 100 100 c3RowBadPop = none) ∧
    ((featOf (commercialRow c2RowPlain)).coordinates.1.isNaN = false ∧
      (featOf (commercialRow c2RowPlain)).coordinates.2.isNaN = false) :=
  ⟨coordinate_nan_validation.1 c3RowBad (Or.inl (by decide)),
   ⟨(coordinate_nan_validation.2.1 c3RowBadPop (Or.inl (by decide))).1,
    (coordinate_nan_validation.2.1 c3RowBadPop (Or.inl (by decide))).2 0 0 100 100⟩,
   coordinate_nan_validation.2.2.2.1 c2RowPlain _ (by decide)⟩

/-! ### Claim C4 -/

/-- Claim C4: in the windowed population loader, a failing shard
contributes exactly nothing — replacing it by an empty successful shard
leaves the result unchanged — so the loader still returns the merged
survivors of every other shard, surfaces no failure, and returns the
empty collection when every shard fails. -/
theorem shard_fault_tolerance :
    (∀ minLng minLat maxLng maxLat fetchChunk k e, fetchChunk k = .error e →
        loadVisiblePopulation minLng minLat maxLng maxLat fetchChunk =
          loadVisiblePopulation minLng minLat maxLng maxLat
            (fun i => if i = k then .ok [] else fetchChunk i)) ∧
    (∀ minLng minLat maxLng maxLat fetchChunk,
        (∀ i, fetchChunk i = .error ()) →
        loadVisiblePopulation minLng minLat maxLng maxLat fetchChunk = []) := by
  constructor
  · intro minLng minLat maxLng maxLat fetchChunk k e hk
    apply flatMap_congr
    intro i _
    by_cases hik : i = k
    · subst hik; rw [hk]; simp
    · simp [hik]
  · intro minLng minLat maxLng maxLat fetchChunk h
    unfold loadVisiblePopulation
    rw [flatMap_congr _ _ (fun _ => []) (fun i _ => by rw [h i])]
    simp

/-- Witness for C4: with shard 2 failing among 18, the load equals the
load with shard 2 empty; with every shard failing, the result is `[]`. -/
theorem shard_fault_tolerance_witness :
    (loadVisiblePopulation 0 0 100 100 c4Fetch =
      loadVisiblePopulation 0 0 100 100
        (fun i => if i = 2 then .ok [] else c4Fetch i)) ∧
    loadVisiblePopulation 0 0 100 100 (fun _ => .error ()) = [] :=
  ⟨shard_fault_tolerance.1 0 0 100 100 c4Fetch 2 () rfl,
   shard_fault_tolerance.2 0 0 100 100 (fun _ => .error ()) (fun _ => rfl)⟩

/-! ### Claim C5 -/

/-- Claim C5: the bounding-box filter of the windowed loader keeps a row
with finite coordinates iff `minLng ≤ lng ≤ maxLng` and
`minLat ≤ lat ≤ maxLat`, inclusive on all four bounds; and for an
inverted box (a min above its max) every row is excluded. -/
theorem bbox_inclusive_iff :
    (∀ minLng minLat maxLng maxLat row qlng qlat,
        jsParseFloatOpt (row.get "Longitude") = .num qlng →
        jsParseFloatOpt (row.get "Latitude") = .num qlat →
        ((chunkRow minLng minLat maxLng maxLat row).isSome = true ↔
          (minLng ≤ qlng ∧ qlng ≤ maxLng ∧ minLat ≤ qlat ∧ qlat ≤ maxLat))) ∧
    (∀ minLng minLat maxLng maxLat row,
        maxLng < minLng ∨ maxLat < minLat →
        chunkRow minLng minLat maxLng maxLat row = none) := by
  constructor
  · intro minLng minLat maxLng maxLat row qlng qlat h1 h2
    simp only [chunkRow, h1, h2, JSNum.isNaN, JSNum.ltQ, JSNum.gtQ,
      Bool.false_eq_true, false_or, decide_eq_true_eq]
    split_ifs with hc
    · simp only [Option.isSome_none, Bool.false_eq_true, false_iff]
      push_neg
      intro ha hb hc'
      rcases hc with h | h | h | h <;> linarith
    · simp only [Option.isSome_some, true_iff]
      push_neg at hc
      exact ⟨hc.1, hc.2.1, hc.2.2.1, hc.2.2.2⟩
  · intro minLng minLat maxLng maxLat row h
    rcases h with h | h
    · rcases inverted_excludes (jsParseFloatOpt (row.get "Longitude")) minLng maxLng h
        with h' | h' | h' <;> simp [chunkRow, h']
    · rcases inverted_excludes (jsParseFloatOpt (row.get "Latitude")) minLat maxLat h
        with h' | h' | h' <;> simp [chunkRow, h']

/-- Witness for C5: a point exactly on the box corner (lng on the min
bound, lat on the max bound) is included, and an inverted box excludes
the same point. -/
theorem bbox_inclusive_witness :
    (chunkRow 0 0 10 10 c5RowOnBound).isSome = true ∧
    chunkRow 5 5 3 3 c5RowOnBound = none :=
  ⟨(bbox_inclusive_iff.1 0 0 10 10 c5RowOnBound 0 10 (by decide) (by decide)).mpr
      (by norm_num),
   bbox_inclusive_iff.2 5 5 3 3 c5RowOnBound (Or.inl (by norm_num))⟩

/-! ### Claim C6 -/

/-- Counterexample to C6 as stated: a traffic row with non-numeric
`year` is emitted with the `year` property *present* and equal to NaN,
not absent/undefined (its `all_motor_vehicles` does default to 0). -/
theorem traffic_year_cex :
    (trafficRow c6Row).isSome = true ∧
    (featOf (trafficRow c6Row)).properties.get "year" = some (.num .nan) ∧
    (featOf (trafficRow c6Row)).properties.get "all_motor_vehicles" =
      some (.num (.num 0)) := by decide

/-- Claim C6 (amended): for a surviving traffic row, a non-parsing
`all_motor_vehicles` yields the value 0, while a non-parsing `year`
yields a present `year` property holding NaN (not zero, not absent). -/
theorem traffic_numeric_defaults :
    ∀ row f, trafficRow row = some f →
      ((jsParseIntOpt (row.get "all_motor_vehicles")).isNaN = true →
        f.properties.get "all_motor_vehicles" = some (.num (.num 0))) ∧
      ((jsParseIntOpt (row.get "year")).isNaN = true →
        f.properties.get "year" = some (.num .nan)) := by
  intro row f h
  simp only [trafficRow] at h
  split_ifs at h
  simp only [Option.some.injEq] at h
  subst h
  constructor
  · intro hm
    have hv : jsParseIntOpt (row.get "all_motor_vehicles") = .nan := by
      cases hN : jsParseIntOpt (row.get "all_motor_vehicles") <;>
        simp_all [JSNum.isNaN]
    simp [Obj.get, lookupLast, hv, JSNum.orZero, JSNum.truthy]
  · intro hy
    have hv : jsParseIntOpt (row.get "year") = .nan := by
      cases hN : jsParseIntOpt (row.get "year") <;> simp_all [JSNum.isNaN]
    simp [Obj.get, lookupLast, hv]

/-- Witness for C6 (amended), at a row with non-numeric `year` and
`all_motor_vehicles`. -/
theorem traffic_numeric_defaults_witness :
    (featOf (trafficRow c6Row)).properties.get "all_motor_vehicles" =
      some (.num (.num 0)) ∧
    (featOf (trafficRow c6Row)).properties.get "year" = some (.num .nan) :=
  ⟨(traffic_numeric_defaults c6Row _ (by decide)).1 (by decide),
   (traffic_numeric_defaults c6Row _ (by decide)).2 (by decide)⟩

/-! ### Claim C7 -/

/-- Claim C7: each whole-file loader is an order-preserving row-local
filter — it maps an appended row list to the appended outputs and a
single row to that row's parse — so output order matches surviving
source-row order; and the windowed loader is the concatenation, over
shard ordinals 1..18 in ascending order, of each shard's survivors,
each shard's survivors again in source-row order. -/
theorem order_preservation :
    (∀ rows rows', readCompetitionsData (rows ++ rows') =
        readCompetitionsData rows ++ readCompetitionsData rows') ∧
    (∀ row, readCompetitionsData [row] = (competitionsRow row).toList) ∧
    (∀ rows rows', readCommercialLandData (rows ++ rows') =
        readCommercialLandData rows ++ readCommercialLandData rows') ∧
    (∀ row, readCommercialLandData [row] = (commercialRow row).toList) ∧
    (∀ rows rows', readTrafficData (rows ++ rows') =
        readTrafficData rows ++ readTrafficData rows') ∧
    (∀ row, readTrafficData [row] = (trafficRow row).toList) ∧
    (∀ rows rows', readPopulationData (rows ++ rows') =
        readPopulationData rows ++ readPopulationData rows') ∧
    (∀ row, readPopulationData [row] = (populationRow row).toList) ∧
    ((List.range totalChunks).map (· + 1) =
      [1, 2, 3, 4, 5, 6, 7, 8, 9, 10, 11, 12, 13, 14, 15, 16, 17, 18]) ∧
    (∀ minLng minLat maxLng maxLat fetchChunk,
        loadVisiblePopulation minLng minLat maxLng maxLat fetchChunk =
          ((List.range totalChunks).map (· + 1)).flatMap
            (chunkSurvivors minLng minLat maxLng maxLat fetchChunk)) ∧
    (∀ minLng minLat maxLng maxLat fetchChunk i rows rows',
        fetchChunk i = .ok (rows ++ rows') →
        chunkSurvivors minLng minLat maxLng maxLat fetchChunk i =
          rows.filterMap (chunkRow minLng minLat maxLng maxLat) ++
          rows'.filterMap (chunkRow minLng minLat maxLng maxLat)) := by
  refine ⟨?_, ?_, ?_, ?_, ?_, ?_, ?_, ?_, by decide, ?_, ?_⟩
  · intro rows rows'; exact List.filterMap_append rows rows' _
  · intro row
    cases h : competitionsRow row <;>
      simp [readCompetitionsData, List.filterMap_cons, h, Option.toList]
  · intro rows rows'; exact List.filterMap_append rows rows' _
  · intro row
    cases h : commercialRow row <;>
      simp [readCommercialLandData, List.filterMap_cons, h, Option.toList]
  · intro rows rows'; exact List.filterMap_append rows rows' _
  · intro row
    cases h : trafficRow row <;>
      simp [readTrafficData, List.filterMap_cons, h, Option.toList]
  · intro rows rows'; exact List.filterMap_append rows rows' _
  · intro row
    cases h : populationRow row <;>
      simp [readPopulationData, List.filterMap_cons, h, Option.toList]
  · intro minLng minLat maxLng maxLat fetchChunk
    apply flatMap_congr
    intro i _
    simp only [chunkSurvivors]
  · intro minLng minLat maxLng maxLat fetchChunk i rows rows' h
    simp only [chunkSurvivors, h, List.filterMap_append]

/-- Witness for C7, splitting a successful shard's rows in two. -/
theorem order_preservation_witness :
    chunkSurvivors 0 0 100 100 c7Fetch 1 =
      [c4Row].filterMap (chunkRow 0 0 100 100) ++
      [c2RowPop].filterMap (chunkRow 0 0 100 100) :=
  order_preservation.2.2.2.2.2.2.2.2.2.2 0 0 100 100 c7Fetch 1 [c4Row] [c2RowPop]
    (by rfl)

/-! ### Claim C8 -/

/-- Counterexample to C8 as stated: the windowed chunk loader emits a
record (from a row with no raw `pointType` column) whose properties
carry no `pointType` at all. -/
theorem pointType_cex :
    (loadVisiblePopulation 0 0 100 100 c8Fetch).map
        (fun f => f.properties.get "pointType") = [none] := by decide

/-- Claim C8 (amended): commercial and traffic records always carry
their dataset's `pointType`; competitor and population records carry it
provided the raw row has no `pointType` column (a raw column overrides
it, since the residual spread comes last); and the windowed chunk loader
assigns no `pointType` at all. -/
theorem pointType_discriminator :
    (∀ row f, commercialRow row = some f →
        f.properties.get "pointType" = some (.str "commercial")) ∧
    (∀ row f, trafficRow row = some f →
        f.properties.get "pointType" = some (.str "traffic")) ∧
    (∀ row f, row.get "pointType" = none → competitionsRow row = some f →
        f.properties.get "pointType" = some (.str "competitor")) ∧
    (∀ row f, row.get "pointType" = none → populationRow row = some f →
        f.properties.get "pointType" = some (.str "population")) ∧
    (∀ minLng minLat maxLng maxLat row f, row.get "pointType" = none →
        chunkRow minLng minLat maxLng maxLat row = some f →
        f.properties.get "pointType" = none) := by
  refine ⟨?_, ?_, ?_, ?_, ?_⟩
  · intro row f h
    simp only [commercialRow] at h
    split_ifs at h
    simp only [Option.some.injEq] at h
    subst h
    simp [Obj.get, lookupLast]
  · intro row f h
    simp only [trafficRow] at h
    split_ifs at h
    simp only [Option.some.injEq] at h
    subst h
    simp [Obj.get, lookupLast]
  · intro row f hpt h
    simp only [competitionsRow] at h
    split_ifs at h
    simp only [Option.some.injEq] at h
    subst h
    rw [Obj.get_append, Obj.get_rest]
    simp [hpt, Obj.get, lookupLast]
  · intro row f hpt h
    simp only [populationRow] at h
    split_ifs at h
    simp only [Option.some.injEq] at h
    subst h
    rw [Obj.get_append, Obj.get_rest]
    simp [hpt, Obj.get, lookupLast]
  · intro minLng minLat maxLng maxLat row f hpt h
    simp only [chunkRow] at h
    split_ifs at h
    simp only [Option.some.injEq] at h
    subst h
    rw [Obj.get_append, Obj.get_rest]
    simp [hpt, Obj.get, lookupLast]

/-- Witness for C8 (amended), at rows with no raw `pointType` column. -/
theorem pointType_discriminator_witness :
    (featOf (commercialRow c2RowPlain)).properties.get "pointType" =
      some (.str "commercial") ∧
    (featOf (trafficRow c2RowPlain)).properties.get "pointType" =
      some (.str "traffic") ∧
    (featOf (competitionsRow c2RowFacility)).properties.get "pointType" =
      some (.str "competitor") ∧
    (featOf (populationRow c2RowPop)).properties.get "pointType" =
      some (.str "population") ∧
    (featOf (chunkRow 0 0 100 100 c8Row)).properties.get "pointType" = none :=
  ⟨pointType_discriminator.1 c2RowPlain _ (by decide),
   pointType_discriminator.2.1 c2RowPlain _ (by decide),
   pointType_discriminator.2.2.1 c2RowFacility _ (by decide) (by decide),
   pointType_discriminator.2.2.2.1 c2RowPop _ (by decide) (by decide),
   pointType_discriminator.2.2.2.2 0 0 100 100 c8Row _ (by decide) (by decide)⟩

/-! ### Claim C9 -/

/-- Counterexample to C9 as stated: on the whole-file population path, a
surviving row's raw `BUA_Population = "100"` is emitted as the raw
string `"100"`, not as a coerced integer. -/
theorem bua_coercion_cex :
    (populationRow c9Row).isSome = true ∧
    (featOf (populationRow c9Row)).properties.get "BUA_Population" =
      some (.str "100") := by decide

/-- Claim C9 (amended): only the chunked/windowed path coerces
`BUA_Population` to an integer (with `|| 0` fallback); the whole-file
population path passes the raw string through unchanged; on both paths
every other unmatched raw column passes through unchanged. -/
theorem bua_population_amended :
    (∀ row f s, populationRow row = some f →
        row.get "BUA_Population" = some s →
        f.properties.get "BUA_Population" = some (.str s)) ∧
    (∀ minLng minLat maxLng maxLat row f,
        chunkRow minLng minLat maxLng maxLat row = some f →
        f.properties.get "BUA_Population" =
          some (.num (jsParseIntOpt (row.get "BUA_Population")).orZero)) ∧
    (∀ row f k s, populationRow row = some f → k ≠ "Latitude" →
        k ≠ "Longitude" → row.get k = some s →
        f.properties.get k = some (.str s)) ∧
    (∀ minLng minLat maxLng maxLat row f k s,
        chunkRow minLng minLat maxLng maxLat row = some f →
        k ≠ "Latitude" → k ≠ "Longitude" → k ≠ "BUA_Population" →
        row.get k = some s → f.properties.get k = some (.str s)) := by
  refine ⟨?_, ?_, ?_, ?_⟩
  · intro row f s h hs
    simp only [populationRow] at h
    split_ifs at h
    simp only [Option.some.injEq] at h
    subst h
    simp [Obj.get, lookupLast_cons, lookupLast_rest, hs]
  · intro minLng minLat maxLng maxLat row f h
    simp only [chunkRow] at h
    split_ifs at h
    simp only [Option.some.injEq] at h
    subst h
    simp [Obj.get, lookupLast_append, lookupLast_rest, lookupLast]
  · intro row f k s h hk1 hk2 hs
    simp only [populationRow] at h
    split_ifs at h
    simp only [Option.some.injEq] at h
    subst h
    simp [Obj.get, lookupLast_cons, lookupLast_rest, hk1, hk2, hs]
  · intro minLng minLat maxLng maxLat row f k s h hk1 hk2 hk3 hs
    simp only [chunkRow] at h
    split_ifs at h
    simp only [Option.some.injEq] at h
    subst h
    simp [Obj.get, lookupLast_append, lookupLast_rest, lookupLast, hk1, hk2, hk3,
      hs, Ne.symm hk3]

/-- Witness for C9 (amended): the same row keeps the raw string on the
whole-file path and gets the coerced integer on the chunked path. -/
theorem bua_population_amended_witness :
    (featOf (populationRow c9Row)).properties.get "BUA_Population" =
      some (.str "100") ∧
    (featOf (chunkRow 0 0 100 100 c9Row)).properties.get "BUA_Population" =
      some (.num (.num 100)) ∧
    (featOf (populationRow c9Row)).properties.get "Postcode" = none ∧
    (featOf (chunkRow 0 0 100 100 c9Row)).properties.get "OutCol" = none :=
  ⟨bua_population_amended.1 c9Row _ "100" (by decide) (by decide),
   (bua_population_amended.2.1 0 0 100 100 c9Row _ (by decide)).trans (by decide),
   by decide, by decide⟩

/-! ### Claim C10 -/

/-- Claim C10: in the competitor loader the residual columns are spread
after the normalized fields, so a raw column named `address`, `query`,
`name`, `phone`, `site` or `pointType` overrides the normalized property
with the raw value, and the raw `full_address` key also remains present
in the emitted properties. -/
theorem residual_override :
    ∀ row f, competitionsRow row = some f →
      (∀ k s,
          (k = "address" ∨ k = "query" ∨ k = "name" ∨ k = "phone" ∨
           k = "site" ∨ k = "pointType") →
          row.get k = some s → f.properties.get k = some (.str s)) ∧
      (∀ s, row.get "full_address" = some s →
          f.properties.get "full_address" = some (.str s)) := by
  intro row f h
  simp only [competitionsRow] at h
  split_ifs at h
  simp only [Option.some.injEq] at h
  subst h
  constructor
  · rintro k s (rfl | rfl | rfl | rfl | rfl | rfl) hs <;>
      simp [Obj.get, lookupLast_cons, lookupLast_rest, hs]
  · intro s hs
    simp [Obj.get, lookupLast_cons, lookupLast_rest, hs]

/-- Witness for C10: a row with raw `address` and `pointType` columns has
those raw values win, while `full_address` stays present. -/
theorem residual_override_witness :
    (featOf (competitionsRow c10Row)).properties.get "address" =
      some (.str "RAW") ∧
    (featOf (competitionsRow c10Row)).properties.get "pointType" =
      some (.str "hacked") ∧
    (featOf (competitionsRow c10Row)).properties.get "full_address" =
      some (.str "FULL") :=
  ⟨(residual_override c10Row _ (by decide)).1 "address" "RAW" (Or.inl rfl)
      (by decide),
   (residual_override c10Row _ (by decide)).1 "pointType" "hacked"
      (by tauto) (by decide),
   (residual_override c10Row _ (by decide)).2 "FULL" (by decide)⟩

end SiteFinder
